import Mathlib

/-!
Verification of the configuration and tracker data models of the beacon
positioning server (source file: server/models.py), together with the
update-path behaviours the specification describes for the tracker state.

The pydantic models are embedded shallowly: each model becomes a Lean
structure of its parsed fields, and schema validation becomes a function
from a raw-input structure (one `Option` field per accepted JSON key;
pydantic ignores unknown keys, so only recognised keys and the aliases
documented by the models appear) to `Option` of the parsed structure.
Python floats are embedded as rationals: the only operations the models
perform on them are exact comparisons against decimal literals.
-/

/-- Parsed MiniprogramSettings: signalPropagationFactor with default 2.5
and no declared range constraint. -/
structure MiniprogramSettings where
  signalPropagationFactor : ℚ
deriving DecidableEq, Repr

/-- Validation of MiniprogramSettings from a raw input that may omit the
field. The source declares only a default (2.5) and no ge/le bounds. -/
def MiniprogramSettings.validate (raw : Option ℚ) : Option MiniprogramSettings :=
  some ⟨raw.getD (5/2)⟩

/-- Parsed WebUISettings: signalPropagationFactor with default 2.5 and
declared bounds ge=1.0, le=6.0. -/
structure WebUISettings where
  signalPropagationFactor : ℚ
deriving DecidableEq, Repr

/-- Validation of WebUISettings: the default 2.5 is applied when the key
is absent, and the value must satisfy 1.0 ≤ n ≤ 6.0. -/
def WebUISettings.validate (raw : Option ℚ) : Option WebUISettings :=
  let n := raw.getD (5/2)
  if 1 ≤ n ∧ n ≤ 6 then some ⟨n⟩ else none

/-- Parsed KalmanParams: processVariance Q (default 1.0) and
measurementVariance R (default 10.0); the source declares no bounds. -/
structure KalmanParams where
  processVariance : ℚ
  measurementVariance : ℚ
deriving DecidableEq, Repr

/-- Validation of KalmanParams from raw inputs that may omit either key.
The source declares only defaults, no ge/gt constraints. -/
def KalmanParams.validate (q r : Option ℚ) : Option KalmanParams :=
  some ⟨q.getD 1, r.getD 10⟩

/-- Parsed DetectedBeacon: macAddress required, major/minor optional,
rssi required. The model has no uuid field. -/
structure DetectedBeacon where
  macAddress : String
  major : Option Int
  minor : Option Int
  rssi : Int
deriving DecidableEq, Repr

/-- Raw input for DetectedBeacon. A uuid key is listed because a caller
may supply one; the model declares no such field, so validation ignores
it (pydantic drops unknown keys). -/
structure RawDetectedBeacon where
  macAddress : Option String
  uuid : Option String
  major : Option Int
  minor : Option Int
  rssi : Option Int
deriving DecidableEq, Repr

/-- Validation of DetectedBeacon: macAddress and rssi are required with
no defaults; major and minor default to none; uuid is not a field. -/
def DetectedBeacon.validate (raw : RawDetectedBeacon) : Option DetectedBeacon := do
  let mac ← raw.macAddress
  let rssi ← raw.rssi
  pure ⟨mac, raw.major, raw.minor, rssi⟩

/-- Parsed MiniprogramBeaconConfig: macAddress (aliases macAddress,
deviceId) required; name (aliases name, displayName) optional; txPower,
x, y required; major, minor optional. -/
structure MiniprogramBeaconConfig where
  macAddress : String
  major : Option Int
  minor : Option Int
  name : Option String
  txPower : Int
  x : ℚ
  y : ℚ
deriving DecidableEq, Repr

/-- Raw input for MiniprogramBeaconConfig, with one key per accepted
alias. -/
structure RawMiniprogramBeaconConfig where
  macAddress : Option String
  deviceId : Option String
  major : Option Int
  minor : Option Int
  name : Option String
  displayName : Option String
  txPower : Option Int
  x : Option ℚ
  y : Option ℚ
deriving DecidableEq, Repr

/-- Validation of MiniprogramBeaconConfig. AliasChoices tries the keys
in declaration order: macAddress before deviceId, name before
displayName. The parsed structure carries only the canonical fields. -/
def MiniprogramBeaconConfig.validate (raw : RawMiniprogramBeaconConfig) :
    Option MiniprogramBeaconConfig := do
  let mac ← raw.macAddress <|> raw.deviceId
  let tx ← raw.txPower
  let x ← raw.x
  let y ← raw.y
  pure ⟨mac, raw.major, raw.minor, raw.name <|> raw.displayName, tx, x, y⟩

/-- Parsed WebUIBeaconConfig: uuid, major, minor, x, y, txPower all
required; displayName and macAddress optional. -/
structure WebUIBeaconConfig where
  uuid : String
  major : Int
  minor : Int
  x : ℚ
  y : ℚ
  txPower : Int
  displayName : Option String
  macAddress : Option String
deriving DecidableEq, Repr

/-- Raw input for WebUIBeaconConfig. -/
structure RawWebUIBeaconConfig where
  uuid : Option String
  major : Option Int
  minor : Option Int
  x : Option ℚ
  y : Option ℚ
  txPower : Option Int
  displayName : Option String
  macAddress : Option String
deriving DecidableEq, Repr

/-- Validation of WebUIBeaconConfig: uuid, major, minor, x, y, txPower
are required with no defaults; displayName and macAddress default to
none. -/
def WebUIBeaconConfig.validate (raw : RawWebUIBeaconConfig) :
    Option WebUIBeaconConfig := do
  let u ← raw.uuid
  let maj ← raw.major
  let mino ← raw.minor
  let x ← raw.x
  let y ← raw.y
  let tx ← raw.txPower
  pure ⟨u, maj, mino, x, y, tx, raw.displayName, raw.macAddress⟩

/-- Parsed MqttServerConfig. clientID has aliases clientID and clientId;
brokerPort defaults to 1883; enabled defaults to true. -/
structure MqttServerConfig where
  brokerHost : String
  brokerPort : Int
  username : Option String
  password : Option String
  applicationID : String
  topicPattern : String
  clientID : Option String
  enabled : Bool
  live_mqtt_status : Option String
deriving DecidableEq, Repr

/-- Raw input for MqttServerConfig, with one key per accepted alias of
clientID. -/
structure RawMqttServerConfig where
  brokerHost : Option String
  brokerPort : Option Int
  username : Option String
  password : Option String
  applicationID : Option String
  topicPattern : Option String
  clientID : Option String
  clientId : Option String
  enabled : Option Bool
  live_mqtt_status : Option String
deriving DecidableEq, Repr

/-- Validation of MqttServerConfig: brokerHost, applicationID and
topicPattern are required; brokerPort defaults to 1883, enabled to true;
clientID is populated from the clientID key, else the clientId key. -/
def MqttServerConfig.validate (raw : RawMqttServerConfig) :
    Option MqttServerConfig := do
  let host ← raw.brokerHost
  let app ← raw.applicationID
  let topic ← raw.topicPattern
  pure ⟨host, raw.brokerPort.getD 1883, raw.username, raw.password, app,
        topic, raw.clientID <|> raw.clientId, raw.enabled.getD true,
        raw.live_mqtt_status⟩

/-- Parsed TrackerReport: trackerId, timestamp (unix ms) and
detectedBeacons, all required. -/
structure TrackerReport where
  trackerId : String
  timestamp : Int
  detectedBeacons : List DetectedBeacon
deriving DecidableEq, Repr

/-- Raw input for TrackerReport: only the three declared keys are
recognised; any transport-envelope key would be ignored by pydantic and
so does not appear. -/
structure RawTrackerReport where
  trackerId : Option String
  timestamp : Option Int
  detectedBeacons : Option (List RawDetectedBeacon)
deriving DecidableEq, Repr

/-- Element-wise validation of a list of detected beacons, failing if
any element fails, as pydantic does for List[DetectedBeacon]. -/
def validateBeacons : List RawDetectedBeacon → Option (List DetectedBeacon)
  | [] => some []
  | b :: bs => do
    let hd ← DetectedBeacon.validate b
    let tl ← validateBeacons bs
    pure (hd :: tl)

/-- Validation of TrackerReport: all three fields are required with no
defaults; the beacon list may be empty. -/
def TrackerReport.validate (raw : RawTrackerReport) : Option TrackerReport := do
  let tid ← raw.trackerId
  let ts ← raw.timestamp
  let bs ← raw.detectedBeacons
  let parsed ← validateBeacons bs
  pure ⟨tid, ts, parsed⟩

/-- Parsed TrackerState: trackerId and last_update_time required; x, y
and last_known_measurement_time default to none; last_detected_beacons
and position_history default to empty lists. -/
structure TrackerState where
  trackerId : String
  x : Option ℚ
  y : Option ℚ
  last_update_time : Int
  last_known_measurement_time : Option Int
  last_detected_beacons : List DetectedBeacon
  position_history : List (ℚ × ℚ × Int)
deriving DecidableEq, Repr

/-- Raw input for TrackerState. -/
structure RawTrackerState where
  trackerId : Option String
  x : Option ℚ
  y : Option ℚ
  last_update_time : Option Int
  last_known_measurement_time : Option Int
  last_detected_beacons : Option (List RawDetectedBeacon)
  position_history : Option (List (ℚ × ℚ × Int))
deriving DecidableEq, Repr

/-- Validation of TrackerState: trackerId and last_update_time required;
every other field has a declared default (none or the empty list). -/
def TrackerState.validate (raw : RawTrackerState) : Option TrackerState := do
  let tid ← raw.trackerId
  let t ← raw.last_update_time
  let bs ← match raw.last_detected_beacons with
    | none => some []
    | some l => validateBeacons l
  pure ⟨tid, raw.x, raw.y, t, raw.last_known_measurement_time, bs,
        raw.position_history.getD []⟩

/-- Modelled from the spec: step 5 of the tracker update algorithm, which
is not in the shown source — appending an (x, y, timestamp) entry to the
bounded position history, evicting the oldest entry first when the
history is at capacity. -/
def pushHistory (cap : Nat) (hist : List (ℚ × ℚ × Int)) (e : ℚ × ℚ × Int) :
    List (ℚ × ℚ × Int) :=
  if cap ≤ hist.length then hist.drop 1 ++ [e] else hist ++ [e]

/-- A runtime record pairing a tracker state with its out-of-order error
counter, as the spec's observability counters describe. -/
structure TrackerRuntime where
  state : TrackerState
  outOfOrderCount : Nat
deriving DecidableEq, Repr

/-- Modelled from the spec: step 1 (ordering policy) of the tracker
update algorithm, which is not in the shown source. A report whose
timestamp is strictly older than the tracker's last known measurement
time is rejected, only bumping the error counter; otherwise the in-order
processing (steps 2 to 6, abstracted here as the parameter since it too
is not in the shown source) runs. -/
def updateTracker (process : TrackerState → TrackerReport → TrackerState)
    (rt : TrackerRuntime) (report : TrackerReport) : TrackerRuntime :=
  match rt.state.last_known_measurement_time with
  | some t =>
      if report.timestamp < t then
        { rt with outOfOrderCount := rt.outOfOrderCount + 1 }
      else { rt with state := process rt.state report }
  | none => { rt with state := process rt.state report }

/-- C1, counterexample: the claim says both settings schemas reject a
signal propagation factor outside [1.0, 6.0] at load, but
MiniprogramSettings accepts 0.5, which is below 1.0. -/
theorem C1_counterexample :
    MiniprogramSettings.validate (some (1/2)) = some ⟨1/2⟩ ∧ ((1 : ℚ)/2 < 1) :=
  ⟨rfl, by norm_num⟩

/-- C1, amended: only the Web UI settings schema enforces the range
[1.0, 6.0] on signalPropagationFactor — every accepted WebUISettings is
in range and every out-of-range input is rejected — while the
Miniprogram settings schema accepts any value without a range check. -/
theorem C1_amended :
    (∀ (raw : Option ℚ) (s : WebUISettings), WebUISettings.validate raw = some s →
      1 ≤ s.signalPropagationFactor ∧ s.signalPropagationFactor ≤ 6) ∧
    (∀ n : ℚ, n < 1 ∨ 6 < n → WebUISettings.validate (some n) = none) ∧
    (∀ n : ℚ, MiniprogramSettings.validate (some n) = some ⟨n⟩) := by
  refine ⟨fun raw s h => ?_, fun n hn => ?_, fun n => rfl⟩
  · by_cases hc : 1 ≤ raw.getD (5/2) ∧ raw.getD (5/2) ≤ 6
    · simp only [WebUISettings.validate, if_pos hc, Option.some.injEq] at h
      subst h
      exact hc
    · simp only [WebUISettings.validate, if_neg hc] at h
      exact absurd h (by simp)
  · have hc : ¬(1 ≤ n ∧ n ≤ 6) := by
      rcases hn with h | h
      · exact fun hand => absurd hand.1 (not_le.mpr h)
      · exact fun hand => absurd hand.2 (not_le.mpr h)
    simp only [WebUISettings.validate, Option.getD_some, if_neg hc]

/-- C1, witness. -/
theorem C1_amended_witness :
    WebUISettings.validate (some 7) = none ∧
    MiniprogramSettings.validate (some 3) = some ⟨3⟩ :=
  ⟨C1_amended.2.1 7 (Or.inr (by norm_num)), C1_amended.2.2 3⟩

/-- C2, counterexample: KalmanParams accepts a negative process variance
Q together with a zero measurement variance R, so constructing it with a
variance outside the claimed valid range succeeds rather than failing. -/
theorem C2_counterexample :
    KalmanParams.validate (some (-1)) (some 0) = some ⟨-1, 0⟩ ∧
    ((-1 : ℚ) < 0) ∧ ¬((0 : ℚ) > 0) :=
  ⟨rfl, by norm_num, by norm_num⟩

/-- C2, amended: KalmanParams performs no range validation at load —
every pair of supplied variance values, in range or not, is accepted
unchanged. -/
theorem C2_amended :
    ∀ q r : ℚ, KalmanParams.validate (some q) (some r) = some ⟨q, r⟩ :=
  fun _ _ => rfl

/-- C3, counterexample: a detected beacon observation supplying only the
uuid+major+minor identity form together with rssi fails validation,
because DetectedBeacon requires macAddress and has no uuid field — so it
is not the case that either identity form is accepted. -/
theorem C3_counterexample :
    DetectedBeacon.validate ⟨none, some ("f7826da6"), some 1, some 2, some (-60)⟩ =
      none :=
  rfl

/-- C3, amended: each schema accepts exactly one identity form.
DetectedBeacon validates when macAddress and rssi are present and fails
whenever macAddress is absent; WebUIBeaconConfig validates when
uuid, major, minor, x, y and txPower are present and fails whenever
uuid is absent (macAddress there is an optional extra, not an
alternative identity). -/
theorem C3_amended :
    (∀ (mac : String) (rssi : Int) (maj mino : Option Int) (u : Option String),
      DetectedBeacon.validate ⟨some mac, u, maj, mino, some rssi⟩ =
        some ⟨mac, maj, mino, rssi⟩) ∧
    (∀ raw : RawDetectedBeacon, raw.macAddress = none →
      DetectedBeacon.validate raw = none) ∧
    (∀ (u : String) (maj mino : Int) (x y : ℚ) (tx : Int)
      (dn mac : Option String),
      WebUIBeaconConfig.validate
          ⟨some u, some maj, some mino, some x, some y, some tx, dn, mac⟩ =
        some ⟨u, maj, mino, x, y, tx, dn, mac⟩) ∧
    (∀ raw : RawWebUIBeaconConfig, raw.uuid = none →
      WebUIBeaconConfig.validate raw = none) := by
  refine ⟨fun mac rssi maj mino u => rfl, ?_, fun u maj mino x y tx dn mac => rfl, ?_⟩
  · rintro ⟨m, u, maj, mino, r⟩ h
    cases h
    rfl
  · rintro ⟨u, maj, mino, x, y, tx, dn, mac⟩ h
    cases h
    rfl

/-- C3, witness. -/
theorem C3_amended_witness :
    DetectedBeacon.validate ⟨none, none, none, none, some 0⟩ = none ∧
    WebUIBeaconConfig.validate
        ⟨none, some 1, some 1, some 0, some 0, some 0, none, none⟩ = none :=
  ⟨C3_amended.2.1 ⟨none, none, none, none, some 0⟩ rfl,
   C3_amended.2.2.2 ⟨none, some 1, some 1, some 0, some 0, some 0, none, none⟩ rfl⟩

/-- C4: alias normalization at the ingestion boundary. Parsing with the
deviceId key equals parsing with the canonical macAddress key, parsing
with displayName equals parsing with the canonical name key (both for
MiniprogramBeaconConfig), parsing with clientId equals parsing with the
canonical clientID key (MqttServerConfig), and a value supplied through
the deviceId alias surfaces as the canonical macAddress field of the
parsed object, which carries no alias field at all. -/
theorem C4_alias_normalization :
    (∀ (v : String) (raw : RawMiniprogramBeaconConfig),
      raw.macAddress = none → raw.deviceId = none →
      MiniprogramBeaconConfig.validate { raw with deviceId := some v } =
        MiniprogramBeaconConfig.validate { raw with macAddress := some v }) ∧
    (∀ (v : String) (raw : RawMiniprogramBeaconConfig),
      raw.name = none → raw.displayName = none →
      MiniprogramBeaconConfig.validate { raw with displayName := some v } =
        MiniprogramBeaconConfig.validate { raw with name := some v }) ∧
    (∀ (v : String) (raw : RawMqttServerConfig),
      raw.clientID = none → raw.clientId = none →
      MqttServerConfig.validate { raw with clientId := some v } =
        MqttServerConfig.validate { raw with clientID := some v }) ∧
    (∀ (v : String) (raw : RawMiniprogramBeaconConfig)
      (cfg : MiniprogramBeaconConfig),
      raw.macAddress = none →
      MiniprogramBeaconConfig.validate { raw with deviceId := some v } = some cfg →
      cfg.macAddress = v) := by
  refine ⟨?_, ?_, ?_, ?_⟩
  · rintro v ⟨m, d, maj, mino, nm, dn, tx, x, y⟩ h1 h2
    cases h1; cases h2; rfl
  · rintro v ⟨m, d, maj, mino, nm, dn, tx, x, y⟩ h1 h2
    cases h1; cases h2; rfl
  · rintro v ⟨bh, bp, un, pw, app, tp, cid1, cid2, en, st⟩ h1 h2
    cases h1; cases h2; rfl
  · rintro v ⟨m, d, maj, mino, nm, dn, tx, x, y⟩ cfg h1 h2
    cases h1
    cases tx with
    | none => exact Option.noConfusion h2
    | some tv =>
      cases x with
      | none => exact Option.noConfusion h2
      | some xv =>
        cases y with
        | none => exact Option.noConfusion h2
        | some yv =>
          cases h2
          rfl

/-- C4, witness. -/
theorem C4_witness :
    MiniprogramBeaconConfig.validate
        ⟨none, some ("aa:bb"), none, none, none, none, some 1, some 0, some 0⟩ =
      MiniprogramBeaconConfig.validate
        ⟨some ("aa:bb"), none, none, none, none, none, some 1, some 0, some 0⟩ ∧
    MqttServerConfig.validate
        ⟨some ("h"), none, none, none, some ("app"), some ("t"), none, some ("c"),
         none, none⟩ =
      MqttServerConfig.validate
        ⟨some ("h"), none, none, none, some ("app"), some ("t"), some ("c"), none,
         none, none⟩ :=
  ⟨C4_alias_normalization.1 "aa:bb"
      ⟨none, none, none, none, none, none, some 1, some 0, some 0⟩ rfl rfl,
   C4_alias_normalization.2.2.1 "c"
      ⟨some ("h"), none, none, none, some ("app"), some ("t"), none, none,
       none, none⟩ rfl rfl⟩

/-- C5: default configuration values — signalPropagationFactor defaults
to 2.5 in both settings schemas, processVariance defaults to 1.0 and
measurementVariance to 10.0, whenever the corresponding key is
omitted. -/
theorem C5_defaults :
    MiniprogramSettings.validate none = some ⟨5/2⟩ ∧
    WebUISettings.validate none = some ⟨5/2⟩ ∧
    (∀ r : Option ℚ, KalmanParams.validate none r = some ⟨1, r.getD 10⟩) ∧
    (∀ q : Option ℚ, KalmanParams.validate q none = some ⟨q.getD 1, 10⟩) := by
  refine ⟨rfl, ?_, fun _ => rfl, fun _ => rfl⟩
  norm_num [WebUISettings.validate]

/-- C6: a TrackerReport requires exactly trackerId, timestamp and
detectedBeacons — validation fails whenever any of the three is missing,
and succeeds with exactly those three fields whenever all are present
and the beacon list validates; the raw input has no transport-envelope
fields. -/
theorem C6_required_fields :
    (∀ raw : RawTrackerReport, raw.trackerId = none →
      TrackerReport.validate raw = none) ∧
    (∀ raw : RawTrackerReport, raw.timestamp = none →
      TrackerReport.validate raw = none) ∧
    (∀ raw : RawTrackerReport, raw.detectedBeacons = none →
      TrackerReport.validate raw = none) ∧
    (∀ (tid : String) (ts : Int) (bs : List RawDetectedBeacon)
      (parsed : List DetectedBeacon),
      validateBeacons bs = some parsed →
      TrackerReport.validate ⟨some tid, some ts, some bs⟩ =
        some ⟨tid, ts, parsed⟩) := by
  refine ⟨?_, ?_, ?_, ?_⟩
  · rintro ⟨t, ts, bs⟩ h; cases h; rfl
  · rintro ⟨t, ts, bs⟩ h; cases h
    cases t <;> rfl
  · rintro ⟨t, ts, bs⟩ h; cases h
    cases t <;> cases ts <;> rfl
  · intro tid ts bs parsed h
    show Option.bind (validateBeacons bs) (fun p => some (TrackerReport.mk tid ts p)) =
      some (TrackerReport.mk tid ts parsed)
    rw [h, Option.some_bind]

/-- C6, witness. -/
theorem C6_witness :
    TrackerReport.validate ⟨none, some 0, some []⟩ = none ∧
    TrackerReport.validate ⟨some ("dev1"), some 17, some []⟩ =
      some ⟨"dev1", 17, []⟩ :=
  ⟨C6_required_fields.1 ⟨none, some 0, some []⟩ rfl,
   C6_required_fields.2.2.2 "dev1" 17 [] [] rfl⟩

/-- A push into a history within a positive capacity stays within that
capacity. -/
theorem pushHistory_length_le (cap : Nat) (hcap : 1 ≤ cap)
    (hist : List (ℚ × ℚ × Int)) (e : ℚ × ℚ × Int) (h : hist.length ≤ cap) :
    (pushHistory cap hist e).length ≤ cap := by
  unfold pushHistory
  split
  · rename_i hle
    simp only [List.length_append, List.length_drop, List.length_cons,
      List.length_nil]
    omega
  · rename_i hgt
    simp only [List.length_append, List.length_cons, List.length_nil]
    omega

/-- Folding pushes into a history keeps exactly the most recent cap
entries, in order. -/
theorem foldl_pushHistory_drop (cap : Nat) (hcap : 1 ≤ cap)
    (es : List (ℚ × ℚ × Int)) :
    ∀ hist : List (ℚ × ℚ × Int), hist.length ≤ cap →
      List.foldl (pushHistory cap) hist es =
        (hist ++ es).drop ((hist ++ es).length - cap) := by
  induction es with
  | nil =>
    intro hist h
    simp [Nat.sub_eq_zero_of_le h]
  | cons e es ih =>
    intro hist h
    rw [List.foldl_cons,
      ih (pushHistory cap hist e) (pushHistory_length_le cap hcap hist e h)]
    by_cases hc : cap ≤ hist.length
    · have hlen : hist.length = cap := le_antisymm h hc
      simp only [pushHistory, if_pos hc]
      have h1 : hist.drop 1 ++ [e] ++ es = (hist ++ e :: es).drop 1 := by
        rw [List.drop_append_of_le_length (by omega), List.append_assoc,
          List.singleton_append]
      rw [h1, List.drop_drop]
      congr 1
      simp only [List.length_drop, List.length_append, List.length_cons,
        List.length_nil]
      omega
    · simp only [pushHistory, if_neg hc, List.append_assoc,
        List.singleton_append]

/-- C7: position history invariant. With a positive capacity, a push
into a history within capacity stays within capacity; a push into a
history exactly at capacity evicts the oldest entry and appends the new
one, preserving the order of the rest; inserting capacity+1 entries into
an empty history leaves exactly the last capacity entries in insertion
order; and so the first-inserted of capacity+1 distinct entries is
absent afterwards. -/
theorem C7_history_fifo (cap : Nat) (hcap : 1 ≤ cap) :
    (∀ (hist : List (ℚ × ℚ × Int)) (e : ℚ × ℚ × Int), hist.length ≤ cap →
      (pushHistory cap hist e).length ≤ cap) ∧
    (∀ (hist : List (ℚ × ℚ × Int)) (e : ℚ × ℚ × Int), hist.length = cap →
      pushHistory cap hist e = hist.drop 1 ++ [e]) ∧
    (∀ es : List (ℚ × ℚ × Int), es.length = cap + 1 →
      List.foldl (pushHistory cap) [] es = es.drop 1) ∧
    (∀ (es : List (ℚ × ℚ × Int)) (e0 : ℚ × ℚ × Int), es.length = cap + 1 →
      es.Nodup → es.head? = some e0 →
      e0 ∉ List.foldl (pushHistory cap) [] es) := by
  have hfold : ∀ es : List (ℚ × ℚ × Int), es.length = cap + 1 →
      List.foldl (pushHistory cap) [] es = es.drop 1 := by
    intro es hlen
    have hone : es.length - cap = 1 := by omega
    rw [foldl_pushHistory_drop cap hcap es [] (by simp), List.nil_append, hone]
  refine ⟨fun hist e h => pushHistory_length_le cap hcap hist e h, ?_, hfold, ?_⟩
  · intro hist e h
    simp only [pushHistory, if_pos (le_of_eq h.symm)]
  · intro es e0 hlen hnd hhd
    rw [hfold es hlen]
    cases es with
    | nil => exact Option.noConfusion hhd
    | cons a as =>
      rw [List.head?_cons, Option.some.injEq] at hhd
      rw [← hhd, List.drop_one, List.tail_cons]
      exact (List.nodup_cons.mp hnd).1

/-- C7, witness. -/
theorem C7_witness :
    (pushHistory 2 [(0, 0, 0)] (1, 1, 1)).length ≤ 2 ∧
    List.foldl (pushHistory 2) [] [(0, 0, 0), (1, 1, 1), (2, 2, 2)] =
      [(1, 1, 1), (2, 2, 2)] :=
  ⟨(C7_history_fifo 2 (by norm_num)).1 [(0, 0, 0)] (1, 1, 1) (by norm_num),
   (C7_history_fifo 2 (by norm_num)).2.2.1 [(0, 0, 0), (1, 1, 1), (2, 2, 2)] rfl⟩

/-- C8: a report whose timestamp is strictly older than the tracker's
last known measurement time is rejected by the update: the tracker state
is left entirely unchanged — position, history, timestamps and beacon
snapshot — and the only effect is the out-of-order error counter
incrementing, whatever in-order processing is in place. -/
theorem C8_out_of_order (process : TrackerState → TrackerReport → TrackerState)
    (rt : TrackerRuntime) (report : TrackerReport) (t : Int)
    (h1 : rt.state.last_known_measurement_time = some t)
    (h2 : report.timestamp < t) :
    (updateTracker process rt report).state = rt.state ∧
    (updateTracker process rt report).outOfOrderCount = rt.outOfOrderCount + 1 := by
  have hstep : updateTracker process rt report =
      { rt with outOfOrderCount := rt.outOfOrderCount + 1 } := by
    unfold updateTracker
    rw [h1]
    exact if_pos h2
  rw [hstep]
  exact ⟨rfl, rfl⟩

/-- C8, witness. -/
theorem C8_witness :
    (updateTracker (fun s _ => s)
        ⟨⟨"t1", none, none, 0, some 100, [], []⟩, 0⟩ ⟨"t1", 50, []⟩).state =
      ⟨"t1", none, none, 0, some 100, [], []⟩ ∧
    (updateTracker (fun s _ => s)
        ⟨⟨"t1", none, none, 0, some 100, [], []⟩, 0⟩ ⟨"t1", 50, []⟩).outOfOrderCount =
      1 :=
  C8_out_of_order (fun s _ => s) ⟨⟨"t1", none, none, 0, some 100, [], []⟩, 0⟩
    ⟨"t1", 50, []⟩ 100 rfl (by norm_num)

/-- C9: a TrackerState is constructible from only trackerId and
last_update_time; its x, y and last_known_measurement_time then default
to none, and its last_detected_beacons and position_history default to
empty lists. -/
theorem C9_minimal_construction :
    ∀ (tid : String) (t : Int),
      TrackerState.validate ⟨some tid, none, none, some t, none, none, none⟩ =
        some ⟨tid, none, none, t, none, [], []⟩ :=
  fun _ _ => rfl

/-- C10: a TrackerReport with an empty detectedBeacons list is
schema-valid, and a DetectedBeacon validates for every rssi integer with
no range constraint — insufficiency of beacons is not a parse-time
error. -/
theorem C10_empty_beacons_valid :
    (∀ (tid : String) (ts : Int),
      TrackerReport.validate ⟨some tid, some ts, some []⟩ =
        some ⟨tid, ts, []⟩) ∧
    (∀ (mac : String) (rssi : Int),
      DetectedBeacon.validate ⟨some mac, none, none, none, some rssi⟩ =
        some ⟨mac, none, none, rssi⟩) :=
  ⟨fun _ _ => rfl, fun _ _ => rfl⟩
